import Mathlib

/-!
Formal model of the cluster coordinator in `src/cluster/coordinator.py`
(`ClusterCoordinator`).  Python dicts become association lists over
`String` keys, floating-point clock values become rationals, and each
HTTP/background handler becomes a pure state-transition function that is
additionally given the current time as an argument (the Python code reads
`time.time()` inside the handler).  Events broadcast to WebSocket clients
are returned as explicit event lists.
-/

namespace Coordinator

/-- Association-list lookup mirroring Python `d[k]` / `k in d`. -/
def dlookup {α : Type} (m : List (String × α)) (k : String) : Option α :=
  match m with
  | [] => none
  | (k2, v) :: rest => if k2 = k then some v else dlookup rest k

/-- Association-list insert mirroring Python `d[k] = v`: replaces the
binding in place when the key is present, otherwise appends. -/
def dinsert {α : Type} (m : List (String × α)) (k : String) (v : α) :
    List (String × α) :=
  match m with
  | [] => [(k, v)]
  | (k2, v2) :: rest =>
    if k2 = k then (k2, v) :: rest else (k2, v2) :: dinsert rest k v

/-- Association-list removal mirroring Python `del d[k]` (on dicts the key
occurs at most once, so removing every occurrence is equivalent). -/
def derase {α : Type} (m : List (String × α)) (k : String) :
    List (String × α) :=
  match m with
  | [] => []
  | (k2, v) :: rest =>
    if k2 = k then derase rest k else (k2, v) :: derase rest k

/-- A node record (`node_info` built in `register_node`). -/
structure NodeInfo where
  id : String
  address : String
  capabilities : List String
  gpu_enabled : Bool
  worker_threads : Nat
  status : String
  last_heartbeat : ℚ
  jobs_completed : Nat
  average_job_time : ℚ
  load_score : ℚ
  deriving DecidableEq, Repr

/-- A job record (the dict built in `submit_job`; fields added later by
`assign_job_to_node` / `handle_job_completion` / `handle_job_failure` are
`Option`s which start out absent). -/
structure Job where
  id : String
  type : String
  priority : String
  parameters : List (String × Int)
  submitted_at : ℚ
  status : String
  assigned_node : Option String
  gpu_preferred : Bool
  assigned_at : Option ℚ
  completed_at : Option ℚ
  failed_at : Option ℚ
  execution_time : Option ℚ
  result : Option String
  error : Option String
  deriving DecidableEq, Repr

/-- The mutable statistics dict `self.stats` (we keep the counters the
handlers touch; `start_time` and `average_response_time` are never read). -/
structure Stats where
  total_calculations : Nat
  gpu_calculations : Nat
  cpu_calculations : Nat
  nodes_online : Nat
  deriving DecidableEq, Repr

/-- Events broadcast via `broadcast_update`, identified by their `type`
field and the id they carry. -/
inductive Event where
  | node_registered (node_id : String)
  | node_offline (node_id : String)
  | job_completed (job_id : String)
  | job_failed (job_id : String)
  deriving DecidableEq, Repr

/-- The coordinator state: `self.nodes`, `self.active_jobs`,
`self.completed_jobs`, `self.stats` and the three asyncio work queues
(modelled as FIFO lists, head = front). -/
structure CoordState where
  nodes : List (String × NodeInfo)
  active_jobs : List (String × Job)
  completed_jobs : List (String × Job)
  stats : Stats
  priority_queue : List Job
  collatz_queue : List Job
  thread_queue : List Job
  deriving DecidableEq, Repr

/-- The freshly constructed coordinator (`ClusterCoordinator.__init__`). -/
def initState : CoordState :=
  { nodes := [], active_jobs := [], completed_jobs := []
    stats := { total_calculations := 0, gpu_calculations := 0
               cpu_calculations := 0, nodes_online := 0 }
    priority_queue := [], collatz_queue := [], thread_queue := [] }

/-- `len([n for n in self.nodes.values() if n['status'] == 'online'])`. -/
def countOnline (nodes : List (String × NodeInfo)) : Nat :=
  (nodes.filter (fun p => p.2.status == "online")).length

/-- Payload of `POST /api/register`; absent fields are `none` (Python
`data.get(key, default)` supplies the default inside the handler). -/
structure RegisterPayload where
  node_id : String
  address : String
  capabilities : Option (List String)
  gpu_enabled : Option Bool
  worker_threads : Option Nat
  deriving Repr

/-- `register_node`: builds a fresh record with status `online`, stores it
(replacing any previous record for the id), recomputes
`stats.nodes_online`, and broadcasts `node_registered`. -/
def register_node (s : CoordState) (data : RegisterPayload) (now : ℚ) :
    CoordState × List Event :=
  let node_info : NodeInfo :=
    { id := data.node_id
      address := data.address
      capabilities := data.capabilities.getD []
      gpu_enabled := data.gpu_enabled.getD false
      worker_threads := data.worker_threads.getD 1
      status := "online"
      last_heartbeat := now
      jobs_completed := 0
      average_job_time := 0
      load_score := 0 }
  let nodes2 := dinsert s.nodes data.node_id node_info
  ({ s with nodes := nodes2
            stats := { s.stats with nodes_online := countOnline nodes2 } },
   [Event.node_registered data.node_id])

/-- Outcome of the `heartbeat` handler: HTTP status code plus the `status`
string of the JSON response body. -/
structure HeartbeatResp where
  http_status : Nat
  body_status : String
  deriving DecidableEq, Repr

/-- `heartbeat`: for a registered node refresh `last_heartbeat`, force
`status` to `online` and overwrite `load_score` from the payload
(`data.get('load_score', 0.0)`); reject unknown ids with 400. -/
def heartbeat (s : CoordState) (node_id : String) (load_score : Option ℚ)
    (now : ℚ) : CoordState × HeartbeatResp :=
  match dlookup s.nodes node_id with
  | some node =>
    ({ s with nodes := dinsert s.nodes node_id
                { node with last_heartbeat := now
                            status := "online"
                            load_score := load_score.getD 0 } },
     { http_status := 200, body_status := "acknowledged" })
  | none => (s, { http_status := 400, body_status := "unknown_node" })

/-- The character Python uses for a decimal digit `d` (`str` of an int). -/
def digitChar : Nat → Char
  | 0 => '0' | 1 => '1' | 2 => '2' | 3 => '3' | 4 => '4'
  | 5 => '5' | 6 => '6' | 7 => '7' | 8 => '8' | 9 => '9'
  | _ => '*'

/-- Fuel-driven digit extraction: with enough fuel, `natCharsGo fuel n` is
the decimal representation of `n`, most significant digit first. -/
def natCharsGo : Nat → Nat → List Char
  | 0, _ => []
  | fuel + 1, n =>
    if n < 10 then [digitChar n]
    else natCharsGo fuel (n / 10) ++ [digitChar (n % 10)]

/-- Characters of the decimal representation of `n`, most significant
first, as produced by Python `str(n)` for a nonnegative int (`n + 1` is
always enough fuel since a number has at most `n + 1` digits). -/
def natChars (n : Nat) : List Char := natCharsGo (n + 1) n

/-- `f"job_{int(time.time() * 1000)}_{len(self.active_jobs)}"`:
the job id is built from the millisecond clock reading and the current
number of active jobs. -/
def jobIdString (ms : Nat) (count : Nat) : String :=
  String.mk ('j' :: 'o' :: 'b' :: '_' ::
    (natChars ms ++ '_' :: natChars count))

/-- Payload of `POST /api/submit`; absent fields are `none`. -/
structure SubmitPayload where
  type : Option String
  priority : Option String
  parameters : Option (List (String × Int))
  gpu_preferred : Option Bool
  deriving Repr

/-- `submit_job`: mints the id from the clock and `len(self.active_jobs)`,
records the job in `active_jobs` with status `queued`, and enqueues it in
exactly one queue: priority `high` → priority queue, else type `collatz`
→ collatz queue, else thread queue.  Returns the new state and the
assigned job id. -/
def submit_job (s : CoordState) (data : SubmitPayload) (now : ℚ) :
    CoordState × String :=
  let job_id := jobIdString (Rat.floor (now * 1000)).toNat s.active_jobs.length
  let job : Job :=
    { id := job_id
      type := data.type.getD "thread"
      priority := data.priority.getD "normal"
      parameters := data.parameters.getD []
      submitted_at := now
      status := "queued"
      assigned_node := none
      gpu_preferred := data.gpu_preferred.getD true
      assigned_at := none
      completed_at := none
      failed_at := none
      execution_time := none
      result := none
      error := none }
  let s1 := { s with active_jobs := dinsert s.active_jobs job_id job }
  let s2 :=
    if job.priority == "high" then
      { s1 with priority_queue := s1.priority_queue ++ [job] }
    else if job.type == "collatz" then
      { s1 with collatz_queue := s1.collatz_queue ++ [job] }
    else
      { s1 with thread_queue := s1.thread_queue ++ [job] }
  (s2, job_id)

/-- One inspection of the three queues by `assign_jobs`: take from the
priority queue; only when it is empty take from the collatz queue; only
when both are empty take from the thread queue; otherwise report no job. -/
def dequeue_next (s : CoordState) : Option (Job × CoordState) :=
  match s.priority_queue with
  | j :: rest => some (j, { s with priority_queue := rest })
  | [] =>
    match s.collatz_queue with
    | j :: rest => some (j, { s with collatz_queue := rest })
    | [] =>
      match s.thread_queue with
      | j :: rest => some (j, { s with thread_queue := rest })
      | [] => none

/-- `[n for n in self.nodes.values() if n['status'] == 'online']`:
the online nodes, in registry order. -/
def onlineNodes (nodes : List (String × NodeInfo)) : List NodeInfo :=
  (nodes.map Prod.snd).filter (fun n => n.status == "online")

/-- The candidate set `select_best_node` sorts: the online nodes, narrowed
to the GPU-enabled ones exactly when the job prefers GPU and that subset
is nonempty. -/
def candidateSet (nodes : List (String × NodeInfo)) (job : Job) :
    List NodeInfo :=
  let available := onlineNodes nodes
  if job.gpu_preferred then
    let gpu_nodes := available.filter (fun n => n.gpu_enabled)
    if gpu_nodes.isEmpty then available else gpu_nodes
  else available

/-- `select_best_node`: restrict to online nodes, narrow to GPU nodes when
the job prefers GPU and some online GPU node exists, sort ascending by
`load_score` (Python `list.sort` is stable; so is insertion sort), and
return the first candidate. -/
def select_best_node (nodes : List (String × NodeInfo)) (job : Job) :
    Option NodeInfo :=
  let available := onlineNodes nodes
  if available.isEmpty then none
  else
    (List.insertionSort (fun a b => a.load_score ≤ b.load_score)
      (candidateSet nodes job)).head?

/-- The mutation `assign_job_to_node` performs before issuing the worker
RPC: set `assigned_node`, move the job to status `assigned` and stamp
`assigned_at`. -/
def mark_assigned (s : CoordState) (job_id : String) (node_id : String)
    (now : ℚ) : CoordState :=
  match dlookup s.active_jobs job_id with
  | none => s
  | some job =>
    let job2 := { job with assigned_node := some node_id
                           status := "assigned"
                           assigned_at := some now }
    { s with active_jobs := dinsert s.active_jobs job_id job2 }

/-- The node-counter update inside `handle_job_completion`:
`jobs_completed += 1` followed by the incremental-mean recomputation
`average_job_time = (average_job_time * (jobs_completed - 1) + execution_time)
/ jobs_completed` (with the incremented counter). -/
def completeOne (node : NodeInfo) (exec_time : ℚ) : NodeInfo :=
  { node with
      jobs_completed := node.jobs_completed + 1
      average_job_time :=
        (node.average_job_time * (node.jobs_completed : ℚ) + exec_time)
          / ((node.jobs_completed : ℚ) + 1) }

/-- `handle_job_completion`: pop the job from `active_jobs`, stamp it
completed, store it in `completed_jobs`, update the executing node's
counters (incremental mean), bump `total_calculations` and one of the
gpu/cpu counters, and broadcast `job_completed`.  Returns `none` exactly
where the Python raises: computing `execution_time` reads
`job['assigned_at']` (absent on a never-assigned job), and the stats split
reads `self.nodes[node_id]` unguarded when `job['gpu_preferred']` is
truthy.  An unknown `job_id` is a silent no-op. -/
def handle_job_completion (s : CoordState) (job_id : String)
    (result : String) (now : ℚ) : Option (CoordState × List Event) :=
  match dlookup s.active_jobs job_id with
  | none => some (s, [])
  | some job =>
    match job.assigned_at with
    | none => none
    | some assigned_at =>
      let exec_time := now - assigned_at
      let job2 := { job with status := "completed"
                             completed_at := some now
                             result := some result
                             execution_time := some exec_time }
      let active2 := derase s.active_jobs job_id
      let completed2 := dinsert s.completed_jobs job_id job2
      let nodes2 :=
        match job.assigned_node with
        | none => s.nodes
        | some node_id =>
          match dlookup s.nodes node_id with
          | none => s.nodes
          | some node => dinsert s.nodes node_id (completeOne node exec_time)
      let gpuSplit : Option Bool :=
        if job.gpu_preferred then
          match job.assigned_node with
          | none => none
          | some node_id =>
            match dlookup nodes2 node_id with
            | none => none
            | some node => some node.gpu_enabled
        else some false
      match gpuSplit with
      | none => none
      | some isGpu =>
        let stats2 :=
          { s.stats with
              total_calculations := s.stats.total_calculations + 1
              gpu_calculations :=
                s.stats.gpu_calculations + (if isGpu then 1 else 0)
              cpu_calculations :=
                s.stats.cpu_calculations + (if isGpu then 0 else 1) }
        some ({ s with nodes := nodes2
                       active_jobs := active2
                       completed_jobs := completed2
                       stats := stats2 },
              [Event.job_completed job_id])

/-- `handle_job_failure`: mark the job failed in place (it stays in
`active_jobs`), record the error and `failed_at`, broadcast `job_failed`.
Nothing else changes; an unknown `job_id` is a silent no-op. -/
def handle_job_failure (s : CoordState) (job_id : String) (error : String)
    (now : ℚ) : CoordState × List Event :=
  match dlookup s.active_jobs job_id with
  | none => (s, [])
  | some job =>
    let job2 := { job with status := "failed"
                           error := some error
                           failed_at := some now }
    ({ s with active_jobs := dinsert s.active_jobs job_id job2 },
     [Event.job_failed job_id])

/-- One sweep of `monitor_nodes`: every node whose last heartbeat is older
than 60 s and whose status is `online` is demoted to `offline` (emitting
`node_offline`); afterwards `stats.nodes_online` is recomputed. -/
def monitor_sweep (s : CoordState) (now : ℚ) : CoordState × List Event :=
  let nodes2 := s.nodes.map (fun p =>
    if 60 < now - p.2.last_heartbeat then
      if p.2.status == "online" then (p.1, { p.2 with status := "offline" })
      else p
    else p)
  let events := (s.nodes.filter (fun p =>
    decide (60 < now - p.2.last_heartbeat) && (p.2.status == "online"))).map
      (fun p => Event.node_offline p.1)
  ({ s with nodes := nodes2
            stats := { s.stats with nodes_online := countOnline nodes2 } },
   events)

/-- One sweep of `cleanup_old_jobs`: drop every completed job whose
`completed_at` (defaulting to 0) is older than one hour. -/
def cleanup_old_jobs (s : CoordState) (now : ℚ) : CoordState :=
  let cutoff := now - 3600
  { s with completed_jobs := (s.completed_jobs.filter
      (fun p => !decide (p.2.completed_at.getD 0 < cutoff))) }

theorem dlookup_dinsert_self {α : Type} (m : List (String × α)) (k : String)
    (v : α) : dlookup (dinsert m k v) k = some v := by
  induction m with
  | nil => simp [dinsert, dlookup]
  | cons p rest ih =>
    by_cases h : p.1 = k
    · simp [dinsert, dlookup, h]
    · simp [dinsert, dlookup, h, ih]

theorem dlookup_dinsert_ne {α : Type} (m : List (String × α))
    (k k2 : String) (v : α) (h : k2 ≠ k) :
    dlookup (dinsert m k v) k2 = dlookup m k2 := by
  induction m with
  | nil => simp [dinsert, dlookup, Ne.symm h]
  | cons p rest ih =>
    by_cases hp : p.1 = k
    · subst hp
      simp [dinsert, dlookup, Ne.symm h]
    · by_cases hq : p.1 = k2 <;> simp [dinsert, dlookup, hp, hq, ih, h]

theorem dlookup_derase_self {α : Type} (m : List (String × α)) (k : String) :
    dlookup (derase m k) k = none := by
  induction m with
  | nil => simp [derase, dlookup]
  | cons p rest ih =>
    by_cases h : p.1 = k
    · simpa [derase, h] using ih
    · simpa [derase, dlookup, h] using ih

theorem dlookup_derase_ne {α : Type} (m : List (String × α)) (k k2 : String)
    (h : k2 ≠ k) : dlookup (derase m k) k2 = dlookup m k2 := by
  induction m with
  | nil => simp [derase, dlookup]
  | cons p rest ih =>
    by_cases hp : p.1 = k
    · subst hp
      simpa [derase, dlookup, Ne.symm h] using ih
    · by_cases hq : p.1 = k2 <;> simp [derase, dlookup, hp, hq, ih, h]

theorem onlineNodes_eq_nil_iff (nodes : List (String × NodeInfo)) :
    onlineNodes nodes = [] ↔ ∀ p ∈ nodes, ¬ p.2.status = "online" := by
  simp only [onlineNodes, List.filter_eq_nil_iff, List.mem_map,
    forall_exists_index, and_imp, Prod.forall, beq_iff_eq]
  constructor
  · intro h a b hab
    exact h b a b hab rfl
  · intro h a b c hbc hcb
    exact hcb ▸ h b c hbc

theorem mem_onlineNodes_status {nodes : List (String × NodeInfo)}
    {n : NodeInfo} (h : n ∈ onlineNodes nodes) : n.status = "online" := by
  have := (List.mem_filter.mp h).2
  simpa using this

theorem candidateSet_subset {nodes : List (String × NodeInfo)} {job : Job}
    {n : NodeInfo} (h : n ∈ candidateSet nodes job) : n ∈ onlineNodes nodes := by
  unfold candidateSet at h
  by_cases hg : job.gpu_preferred
  · simp only [hg, if_true] at h
    by_cases he : ((onlineNodes nodes).filter (fun n => n.gpu_enabled)).isEmpty
    · simpa [he] using h
    · simp only [he, if_false] at h
      exact (List.mem_filter.mp h).1
  · simpa [hg] using h

theorem candidateSet_ne_nil {nodes : List (String × NodeInfo)} {job : Job}
    (h : onlineNodes nodes ≠ []) : candidateSet nodes job ≠ [] := by
  unfold candidateSet
  by_cases hg : job.gpu_preferred
  · simp only [hg, if_true]
    by_cases he : ((onlineNodes nodes).filter (fun n => n.gpu_enabled)).isEmpty
    · simpa [he] using h
    · rw [if_neg he]
      intro hnil
      exact he (by simp [hnil])
  · simpa [hg] using h

/-- C6: `select_best_node` returns `none` exactly when no node is online;
otherwise it returns an online node of the candidate set (online nodes,
narrowed to the GPU-enabled ones exactly when the job prefers GPU and such
a node exists) whose `load_score` is minimal within that set. -/
theorem select_best_node_correct (nodes : List (String × NodeInfo))
    (job : Job) :
    (select_best_node nodes job = none ↔
      ∀ p ∈ nodes, ¬ p.2.status = "online") ∧
    (∀ n, select_best_node nodes job = some n →
      n.status = "online" ∧ n ∈ candidateSet nodes job ∧
      ∀ m ∈ candidateSet nodes job, n.load_score ≤ m.load_score) := by
  haveI : IsTotal NodeInfo (fun a b => a.load_score ≤ b.load_score) :=
    ⟨fun a b => le_total _ _⟩
  haveI : IsTrans NodeInfo (fun a b => a.load_score ≤ b.load_score) :=
    ⟨fun a b c hab hbc => le_trans hab hbc⟩
  by_cases h : (onlineNodes nodes).isEmpty
  · have hnil : onlineNodes nodes = [] := by simpa using h
    constructor
    · simp only [select_best_node, h, if_true]
      simpa using (onlineNodes_eq_nil_iff nodes).mp hnil
    · intro n hn
      simp [select_best_node, h] at hn
  · have hon : onlineNodes nodes ≠ [] := by simpa using h
    have hcand : candidateSet nodes job ≠ [] := candidateSet_ne_nil hon
    set r : NodeInfo → NodeInfo → Prop :=
      fun a b => a.load_score ≤ b.load_score with hr
    have hperm := List.perm_insertionSort r (candidateSet nodes job)
    have hsorted := List.sorted_insertionSort r (candidateSet nodes job)
    obtain ⟨x, xs, hx⟩ :
        ∃ x xs, List.insertionSort r (candidateSet nodes job) = x :: xs := by
      cases hc : List.insertionSort r (candidateSet nodes job) with
      | nil => exact absurd ((hc ▸ hperm).nil_eq).symm hcand
      | cons a l => exact ⟨a, l, rfl⟩
    have hval : select_best_node nodes job = some x := by
      simp [select_best_node, h, hx]
    constructor
    · rw [hval]
      simp only [iff_false, reduceCtorEq, false_iff]
      intro hall
      exact hon ((onlineNodes_eq_nil_iff nodes).mpr hall)
    · intro n hn
      rw [hval] at hn
      cases hn
      have hxmem : x ∈ candidateSet nodes job := by
        rw [← hperm.mem_iff, hx]; exact List.mem_cons_self _ _
      refine ⟨mem_onlineNodes_status (candidateSet_subset hxmem), hxmem, ?_⟩
      intro m hm
      rw [← hperm.mem_iff, hx] at hm
      rcases List.mem_cons.mp hm with hmx | hmxs
      · exact hmx ▸ le_refl _
      · exact List.rel_of_sorted_cons (hx ▸ hsorted) m hmxs

/-- C7: on a worker-RPC failure the job is marked `failed` with
`failed_at` stamped and the error string recorded, it stays in
`active_jobs`, no queue receives it back, the statistics counters are
untouched, exactly one `job_failed` event is emitted, and the node
registry is untouched. -/
theorem handle_job_failure_spec (s : CoordState) (jid err : String)
    (now : ℚ) (job : Job) (hjob : dlookup s.active_jobs jid = some job) :
    dlookup (handle_job_failure s jid err now).1.active_jobs jid =
      some { job with status := "failed", error := some err
                      failed_at := some now } ∧
    (∀ k, k ≠ jid →
      dlookup (handle_job_failure s jid err now).1.active_jobs k =
        dlookup s.active_jobs k) ∧
    (handle_job_failure s jid err now).1.completed_jobs = s.completed_jobs ∧
    (handle_job_failure s jid err now).1.stats = s.stats ∧
    (handle_job_failure s jid err now).1.nodes = s.nodes ∧
    (handle_job_failure s jid err now).1.priority_queue = s.priority_queue ∧
    (handle_job_failure s jid err now).1.collatz_queue = s.collatz_queue ∧
    (handle_job_failure s jid err now).1.thread_queue = s.thread_queue ∧
    (handle_job_failure s jid err now).2 = [Event.job_failed jid] := by
  simp only [handle_job_failure, hjob]
  refine ⟨dlookup_dinsert_self _ _ _,
    fun k hk => dlookup_dinsert_ne _ _ _ _ hk, ?_, ?_, ?_, ?_, ?_, ?_, ?_⟩ <;>
    trivial

def nodeH7 : NodeInfo :=
  { id := "n1", address := "127.0.0.1:8080", capabilities := []
    gpu_enabled := false, worker_threads := 4, status := "online"
    last_heartbeat := 0, jobs_completed := 0, average_job_time := 0
    load_score := 0 }

def jobH7 : Job :=
  { id := "job_0_0", type := "thread", priority := "normal", parameters := []
    submitted_at := 0, status := "assigned", assigned_node := some "n1"
    gpu_preferred := false, assigned_at := some 0, completed_at := none
    failed_at := none, execution_time := none, result := none, error := none }

def stateH7 : CoordState :=
  { nodes := [("n1", nodeH7)], active_jobs := [("job_0_0", jobH7)]
    completed_jobs := []
    stats := { total_calculations := 0, gpu_calculations := 0
               cpu_calculations := 0, nodes_online := 1 }
    priority_queue := [], collatz_queue := [], thread_queue := [] }

theorem handle_job_failure_spec_witness :
    dlookup (handle_job_failure stateH7 "job_0_0" "Node returned status 500"
        7).1.active_jobs "job_0_0" =
      some { jobH7 with status := "failed"
                        error := some "Node returned status 500"
                        failed_at := some 7 } ∧
    (handle_job_failure stateH7 "job_0_0" "Node returned status 500"
        7).1.stats = stateH7.stats :=
  ⟨(handle_job_failure_spec stateH7 "job_0_0" "Node returned status 500" 7
      jobH7 (by decide)).1,
   (handle_job_failure_spec stateH7 "job_0_0" "Node returned status 500" 7
      jobH7 (by decide)).2.2.2.1⟩

/-- C8: a heartbeat for an unregistered id is answered 400/`unknown_node`
and leaves the whole state untouched; a heartbeat for a registered id is
acknowledged, forces that node to `online`, refreshes `last_heartbeat`,
overwrites `load_score` with the payload value, and changes nothing
else. -/
theorem heartbeat_spec (s : CoordState) (nid : String) (ls : Option ℚ)
    (now : ℚ) :
    (dlookup s.nodes nid = none →
      heartbeat s nid ls now =
        (s, { http_status := 400, body_status := "unknown_node" })) ∧
    (∀ node, dlookup s.nodes nid = some node →
      (heartbeat s nid ls now).2 =
        { http_status := 200, body_status := "acknowledged" } ∧
      dlookup (heartbeat s nid ls now).1.nodes nid =
        some { node with last_heartbeat := now, status := "online"
                         load_score := ls.getD 0 } ∧
      (∀ k, k ≠ nid →
        dlookup (heartbeat s nid ls now).1.nodes k = dlookup s.nodes k) ∧
      (heartbeat s nid ls now).1.active_jobs = s.active_jobs ∧
      (heartbeat s nid ls now).1.completed_jobs = s.completed_jobs ∧
      (heartbeat s nid ls now).1.stats = s.stats ∧
      (heartbeat s nid ls now).1.priority_queue = s.priority_queue ∧
      (heartbeat s nid ls now).1.collatz_queue = s.collatz_queue ∧
      (heartbeat s nid ls now).1.thread_queue = s.thread_queue) := by
  constructor
  · intro h
    simp [heartbeat, h]
  · intro node h
    simp only [heartbeat, h]
    refine ⟨?_, dlookup_dinsert_self _ _ _,
      fun k hk => dlookup_dinsert_ne _ _ _ _ hk,
      ?_, ?_, ?_, ?_, ?_, ?_⟩ <;> trivial

def nodeH8 : NodeInfo :=
  { id := "n1", address := "127.0.0.1:8080", capabilities := []
    gpu_enabled := false, worker_threads := 2, status := "offline"
    last_heartbeat := 0, jobs_completed := 3, average_job_time := 2
    load_score := 4 }

def stateH8 : CoordState :=
  { nodes := [("n1", nodeH8)], active_jobs := [], completed_jobs := []
    stats := { total_calculations := 3, gpu_calculations := 0
               cpu_calculations := 3, nodes_online := 0 }
    priority_queue := [], collatz_queue := [], thread_queue := [] }

theorem heartbeat_spec_witness :
    heartbeat stateH8 "n2" (some 1) 30 =
      (stateH8, { http_status := 400, body_status := "unknown_node" }) ∧
    dlookup (heartbeat stateH8 "n1" (some 1) 30).1.nodes "n1" =
      some { nodeH8 with last_heartbeat := 30, status := "online"
                         load_score := 1 } :=
  ⟨(heartbeat_spec stateH8 "n2" (some 1) 30).1 (by decide),
   ((heartbeat_spec stateH8 "n1" (some 1) 30).2 nodeH8 (by decide)).2.1⟩

/-- C10: a submission whose body omits `gpu_preferred` is recorded with
`gpu_preferred = true` (`data.get('gpu_preferred', True)`). -/
theorem submit_job_gpu_preferred_default (s : CoordState)
    (data : SubmitPayload) (now : ℚ) (h : data.gpu_preferred = none) :
    ∃ job, dlookup (submit_job s data now).1.active_jobs
        (submit_job s data now).2 = some job ∧ job.gpu_preferred = true := by
  simp only [submit_job, h]
  by_cases h1 : (data.priority.getD "normal") == "high"
  · simp only [h1, if_true]
    exact ⟨_, dlookup_dinsert_self _ _ _, rfl⟩
  · by_cases h2 : (data.type.getD "thread") == "collatz"
    · simp only [h1, h2, Bool.false_eq_true, if_false, if_true]
      exact ⟨_, dlookup_dinsert_self _ _ _, rfl⟩
    · simp only [h1, h2, Bool.false_eq_true, if_false]
      exact ⟨_, dlookup_dinsert_self _ _ _, rfl⟩

theorem submit_job_gpu_preferred_default_witness :
    ∃ job, dlookup (submit_job initState
        { type := none, priority := none, parameters := none
          gpu_preferred := none } 1).1.active_jobs
      (submit_job initState
        { type := none, priority := none, parameters := none
          gpu_preferred := none } 1).2 = some job ∧
      job.gpu_preferred = true :=
  submit_job_gpu_preferred_default initState
    { type := none, priority := none, parameters := none
      gpu_preferred := none } 1 rfl

theorem completeOne_mass (node : NodeInfo) (t : ℚ) :
    (completeOne node t).average_job_time *
        ((completeOne node t).jobs_completed : ℚ) =
      node.average_job_time * (node.jobs_completed : ℚ) + t := by
  have hk : ((node.jobs_completed : ℚ) + 1) ≠ 0 := by positivity
  simp only [completeOne, Nat.cast_add, Nat.cast_one]
  field_simp

theorem completeOne_fold_counts (ts : List ℚ) :
    ∀ node : NodeInfo,
      (List.foldl completeOne node ts).jobs_completed =
        node.jobs_completed + ts.length ∧
      (List.foldl completeOne node ts).average_job_time *
          (((List.foldl completeOne node ts).jobs_completed : ℚ)) =
        node.average_job_time * (node.jobs_completed : ℚ) + ts.sum := by
  induction ts with
  | nil => intro node; simp
  | cons t rest ih =>
    intro node
    obtain ⟨hcount, havg⟩ := ih (completeOne node t)
    refine ⟨?_, ?_⟩
    · rw [List.foldl_cons, hcount]
      simp only [completeOne, List.length_cons]
      omega
    · simp only [List.foldl_cons, List.sum_cons]
      rw [havg, completeOne_mass]
      ring

/-- C9: starting from a freshly registered node record
(`jobs_completed = 0`, `average_job_time = 0.0`), performing the
completion-time counter update of `handle_job_completion` once per job
with execution times `ts` leaves `average_job_time` equal to the exact
arithmetic mean of `ts` (and `jobs_completed` equal to their number). -/
theorem average_job_time_is_mean (node : NodeInfo) (ts : List ℚ)
    (h0 : node.jobs_completed = 0) (h1 : node.average_job_time = 0)
    (hne : ts ≠ []) :
    (List.foldl completeOne node ts).jobs_completed = ts.length ∧
    (List.foldl completeOne node ts).average_job_time =
      ts.sum / (ts.length : ℚ) := by
  obtain ⟨hcount, havg⟩ := completeOne_fold_counts ts node
  rw [h0] at hcount
  rw [h0, h1] at havg
  simp only [Nat.cast_zero, zero_mul, zero_add, Nat.zero_add] at havg
  refine ⟨by simpa using hcount, ?_⟩
  have hlen : ((ts.length : ℚ)) ≠ 0 := by
    simpa using fun hzero => hne (List.length_eq_zero.mp hzero)
  rw [eq_div_iff hlen, ← havg, hcount]
  simp

theorem average_job_time_is_mean_witness :
    (List.foldl completeOne
        { id := "n1", address := "127.0.0.1:8080", capabilities := []
          gpu_enabled := false, worker_threads := 1, status := "online"
          last_heartbeat := 0, jobs_completed := 0, average_job_time := 0
          load_score := 0 } [2, 4, 6]).jobs_completed = 3 ∧
    (List.foldl completeOne
        { id := "n1", address := "127.0.0.1:8080", capabilities := []
          gpu_enabled := false, worker_threads := 1, status := "online"
          last_heartbeat := 0, jobs_completed := 0, average_job_time := 0
          load_score := 0 } [2, 4, 6]).average_job_time =
      ([2, 4, 6] : List ℚ).sum / (([2, 4, 6] : List ℚ).length : ℚ) :=
  average_job_time_is_mean _ [2, 4, 6] rfl rfl (by decide)

/-- C1 (amended): at a handled completion the coordinator increments
`stats.gpu_calculations` exactly when the job's `gpu_preferred` flag AND
the executing node's `gpu_enabled` flag are both true, and increments
`stats.cpu_calculations` otherwise; `total_calculations` always goes up by
one.  (The attribution does depend on `gpu_preferred`.) -/
theorem completion_gpu_split (s : CoordState) (jid res : String)
    (now ta : ℚ) (job : Job) (nid : String) (node : NodeInfo)
    (hjob : dlookup s.active_jobs jid = some job)
    (hta : job.assigned_at = some ta)
    (hnid : job.assigned_node = some nid)
    (hnode : dlookup s.nodes nid = some node) :
    ∃ s2 ev, handle_job_completion s jid res now = some (s2, ev) ∧
      s2.stats.total_calculations = s.stats.total_calculations + 1 ∧
      s2.stats.gpu_calculations = s.stats.gpu_calculations +
        (if job.gpu_preferred ∧ node.gpu_enabled then 1 else 0) ∧
      s2.stats.cpu_calculations = s.stats.cpu_calculations +
        (if job.gpu_preferred ∧ node.gpu_enabled then 0 else 1) := by
  simp only [handle_job_completion, hjob, hta, hnid, hnode,
    dlookup_dinsert_self]
  by_cases hg : job.gpu_preferred
  · have hge : (completeOne node (now - ta)).gpu_enabled = node.gpu_enabled :=
      rfl
    by_cases he : node.gpu_enabled
    · simp only [hg, if_true, hge, he]
      exact ⟨_, _, rfl, rfl, by simp [hg, he], by simp [hg, he]⟩
    · simp only [hg, if_true, hge, he]
      exact ⟨_, _, rfl, rfl, by simp [hg, he], by simp [hg, he]⟩
  · simp only [hg]
    exact ⟨_, _, rfl, rfl, by simp [hg], by simp [hg]⟩

def nodeC1 : NodeInfo :=
  { id := "n1", address := "127.0.0.1:8080", capabilities := ["gpu"]
    gpu_enabled := true, worker_threads := 4, status := "online"
    last_heartbeat := 0, jobs_completed := 0, average_job_time := 0
    load_score := 0 }

def jobC1 : Job :=
  { id := "job_0_0", type := "thread", priority := "normal", parameters := []
    submitted_at := 0, status := "assigned", assigned_node := some "n1"
    gpu_preferred := false, assigned_at := some 0, completed_at := none
    failed_at := none, execution_time := none, result := none, error := none }

def stateC1 : CoordState :=
  { nodes := [("n1", nodeC1)], active_jobs := [("job_0_0", jobC1)]
    completed_jobs := []
    stats := { total_calculations := 0, gpu_calculations := 0
               cpu_calculations := 0, nodes_online := 1 }
    priority_queue := [], collatz_queue := [], thread_queue := [] }

/-- C1 counterexample: a job with `gpu_preferred = false` completes on a
node whose `gpu_enabled` is true at completion time, yet
`cpu_calculations` (not `gpu_calculations`) is incremented — the gpu/cpu
attribution is not keyed on the node's flag alone. -/
theorem completion_gpu_split_counterexample :
    nodeC1.gpu_enabled = true ∧
    (handle_job_completion stateC1 "job_0_0" "ok" 1).map
        (fun r => (r.1.stats.gpu_calculations, r.1.stats.cpu_calculations)) =
      some (0, 1) := by decide

theorem completion_gpu_split_witness :
    ∃ s2 ev, handle_job_completion stateC1 "job_0_0" "ok" 1 = some (s2, ev) ∧
      s2.stats.total_calculations = stateC1.stats.total_calculations + 1 ∧
      s2.stats.gpu_calculations = stateC1.stats.gpu_calculations +
        (if jobC1.gpu_preferred ∧ nodeC1.gpu_enabled then 1 else 0) ∧
      s2.stats.cpu_calculations = stateC1.stats.cpu_calculations +
        (if jobC1.gpu_preferred ∧ nodeC1.gpu_enabled then 0 else 1) :=
  completion_gpu_split stateC1 "job_0_0" "ok" 1 0 jobC1 "n1" nodeC1
    (by decide) (by decide) (by decide) (by decide)

/-- C2 (amended): `stats.nodes_online` is recomputed to the exact count of
online nodes by `register_node` and by every `monitor_nodes` sweep, but a
heartbeat leaves `stats` untouched even when it flips an offline node back
to `online`, so the count can be stale until the next sweep. -/
theorem nodes_online_recomputed_on_register_and_sweep :
    (∀ s data now,
      (register_node s data now).1.stats.nodes_online =
        countOnline (register_node s data now).1.nodes) ∧
    (∀ s now,
      (monitor_sweep s now).1.stats.nodes_online =
        countOnline (monitor_sweep s now).1.nodes) ∧
    (∀ s nid ls now, (heartbeat s nid ls now).1.stats = s.stats) := by
  refine ⟨fun s data now => rfl, fun s now => rfl, fun s nid ls now => ?_⟩
  unfold heartbeat
  cases dlookup s.nodes nid <;> rfl

def regPayloadC2 : RegisterPayload :=
  { node_id := "n1", address := "127.0.0.1:8080", capabilities := none
    gpu_enabled := none, worker_threads := none }

def stateC2a : CoordState := (register_node initState regPayloadC2 0).1

def stateC2b : CoordState := (monitor_sweep stateC2a 100).1

def stateC2c : CoordState := (heartbeat stateC2b "n1" (some 0) 100).1

/-- C2 counterexample: register `n1` at t=0 (`nodes_online = 1`), demote
it by the liveness sweep at t=100 (`nodes_online = 0`), then heartbeat it
back at t=100: the node's status becomes `online` but `stats.nodes_online`
is still 0 while the true online count is 1. -/
theorem nodes_online_stale_after_heartbeat :
    (dlookup stateC2c.nodes "n1").map NodeInfo.status = some "online" ∧
    stateC2c.stats.nodes_online = 0 ∧
    countOnline stateC2c.nodes = 1 := by
  have h : (60 : ℚ) < 100 - 0 := by norm_num
  have hb : stateC2b =
      { nodes := [("n1",
          { id := "n1", address := "127.0.0.1:8080", capabilities := []
            gpu_enabled := false, worker_threads := 1, status := "offline"
            last_heartbeat := 0, jobs_completed := 0, average_job_time := 0
            load_score := 0 })]
        active_jobs := [], completed_jobs := []
        stats := { total_calculations := 0, gpu_calculations := 0
                   cpu_calculations := 0, nodes_online := 0 }
        priority_queue := [], collatz_queue := [], thread_queue := [] } := by
    simp only [stateC2b, stateC2a, register_node, initState, regPayloadC2,
      monitor_sweep, countOnline, dinsert, List.map_cons, List.map_nil,
      if_pos h]
    decide
  unfold stateC2c
  rw [hb]
  decide

theorem natCharsGo_eq_digits :
    ∀ fuel n, 0 < n → n ≤ fuel →
      natCharsGo fuel n = ((Nat.digits 10 n).map digitChar).reverse := by
  intro fuel
  induction fuel with
  | zero => intro n h0 h1; omega
  | succ fuel ih =>
    intro n h0 h1
    rw [natCharsGo]
    by_cases h : n < 10
    · rw [if_pos h, Nat.digits_def' (by norm_num : (1 : ℕ) < 10) h0,
        Nat.div_eq_of_lt h]
      simp [Nat.mod_eq_of_lt h]
    · rw [if_neg h, Nat.digits_def' (by norm_num : (1 : ℕ) < 10) h0]
      have hpos : 0 < n / 10 := Nat.div_pos (le_of_not_lt h) (by norm_num)
      have hlt : n / 10 < n := Nat.div_lt_self h0 (by norm_num)
      rw [ih (n / 10) hpos (by omega)]
      simp

theorem natChars_eq (n : Nat) :
    natChars n =
      if n = 0 then ['0']
      else ((Nat.digits 10 n).map digitChar).reverse := by
  by_cases h : n = 0
  · subst h; rfl
  · rw [natChars, natCharsGo_eq_digits (n + 1) n (Nat.pos_of_ne_zero h)
      (Nat.le_succ n), if_neg h]

theorem digitChar_inj_lt :
    ∀ a b : Fin 10, digitChar a.1 = digitChar b.1 → a = b := by decide

theorem digitChar_ne_underscore : ∀ a : Fin 10, digitChar a.1 ≠ '_' := by
  decide

theorem natChars_no_underscore (n : Nat) : '_' ∉ natChars n := by
  rw [natChars_eq]
  by_cases h : n = 0
  · rw [if_pos h]; decide
  · rw [if_neg h]
    intro hmem
    rw [List.mem_reverse, List.mem_map] at hmem
    obtain ⟨d, hd, hdc⟩ := hmem
    have hlt : d < 10 := Nat.digits_lt_base (by norm_num) hd
    exact digitChar_ne_underscore ⟨d, hlt⟩ hdc

theorem digits_map_digitChar_inj :
    ∀ l1 l2 : List ℕ, (∀ d ∈ l1, d < 10) → (∀ d ∈ l2, d < 10) →
      l1.map digitChar = l2.map digitChar → l1 = l2 := by
  intro l1
  induction l1 with
  | nil => intro l2 _ _ h; cases l2 <;> simp_all
  | cons d t ih =>
    intro l2 h1 h2 h
    cases l2 with
    | nil => simp at h
    | cons d2 t2 =>
      simp only [List.map_cons, List.cons.injEq] at h
      have hd : d = d2 := congrArg Fin.val
        (digitChar_inj_lt ⟨d, h1 d (by simp)⟩ ⟨d2, h2 d2 (by simp)⟩ h.1)
      have ht : t = t2 :=
        ih t2 (fun x hx => h1 x (by simp [hx]))
          (fun x hx => h2 x (by simp [hx])) h.2
      rw [hd, ht]

theorem natChars_injective (m n : Nat) (h : natChars m = natChars n) :
    m = n := by
  rw [natChars_eq, natChars_eq] at h
  by_cases hm : m = 0 <;> by_cases hn : n = 0
  · rw [hm, hn]
  · rw [if_pos hm, if_neg hn] at h
    exfalso
    have hd : (Nat.digits 10 n).map digitChar = ['0'] := by
      have := congrArg List.reverse h
      simpa using this.symm
    have : Nat.digits 10 n = [0] := by
      cases hds : Nat.digits 10 n with
      | nil => rw [hds] at hd; simp at hd
      | cons a t =>
        rw [hds] at hd
        cases t with
        | nil =>
          simp only [List.map_cons, List.map_nil, List.cons.injEq] at hd
          have ha : a < 10 := Nat.digits_lt_base (by norm_num)
            (show a ∈ Nat.digits 10 n by rw [hds]; simp)
          have := digitChar_inj_lt ⟨a, ha⟩ ⟨0, by norm_num⟩ (by simpa using hd.1)
          simp only [Fin.mk.injEq] at this
          rw [this]
        | cons b t2 => simp at hd
    have : n = 0 := by
      have h0 := Nat.ofDigits_digits 10 n
      rw [this] at h0
      simpa using h0.symm
    exact hn this
  · rw [if_neg hm, if_pos hn] at h
    exfalso
    have hd : (Nat.digits 10 m).map digitChar = ['0'] := by
      have := congrArg List.reverse h
      simpa using this
    have : Nat.digits 10 m = [0] := by
      cases hds : Nat.digits 10 m with
      | nil => rw [hds] at hd; simp at hd
      | cons a t =>
        rw [hds] at hd
        cases t with
        | nil =>
          simp only [List.map_cons, List.map_nil, List.cons.injEq] at hd
          have ha : a < 10 := Nat.digits_lt_base (by norm_num)
            (show a ∈ Nat.digits 10 m by rw [hds]; simp)
          have := digitChar_inj_lt ⟨a, ha⟩ ⟨0, by norm_num⟩ (by simpa using hd.1)
          simp only [Fin.mk.injEq] at this
          rw [this]
        | cons b t2 => simp at hd
    have : m = 0 := by
      have h0 := Nat.ofDigits_digits 10 m
      rw [this] at h0
      simpa using h0.symm
    exact hm this
  · rw [if_neg hm, if_neg hn] at h
    have h2 : (Nat.digits 10 m).map digitChar =
        (Nat.digits 10 n).map digitChar := by
      have := congrArg List.reverse h
      simpa using this
    have h3 : Nat.digits 10 m = Nat.digits 10 n :=
      digits_map_digitChar_inj _ _
        (fun d hd => Nat.digits_lt_base (by norm_num) hd)
        (fun d hd => Nat.digits_lt_base (by norm_num) hd) h2
    have h4 := Nat.ofDigits_digits 10 m
    rw [h3, Nat.ofDigits_digits 10 n] at h4
    exact h4.symm

theorem append_underscore_eq :
    ∀ a1 a2 b1 b2 : List Char, '_' ∉ a1 → '_' ∉ a2 →
      a1 ++ '_' :: b1 = a2 ++ '_' :: b2 → a1 = a2 ∧ b1 = b2 := by
  intro a1
  induction a1 with
  | nil =>
    intro a2 b1 b2 _ h2 h
    cases a2 with
    | nil => simpa using h
    | cons c t =>
      exfalso
      simp only [List.nil_append, List.cons_append, List.cons.injEq] at h
      exact h2 (h.1 ▸ List.mem_cons_self _ _)
  | cons c t ih =>
    intro a2 b1 b2 h1 h2 h
    cases a2 with
    | nil =>
      exfalso
      simp only [List.nil_append, List.cons_append, List.cons.injEq] at h
      exact h1 (h.1 ▸ List.mem_cons_self _ _)
    | cons c2 t2 =>
      simp only [List.cons_append, List.cons.injEq] at h
      obtain ⟨ht, hb⟩ := ih t2 b1 b2 (fun hm => h1 (List.mem_cons_of_mem _ hm))
        (fun hm => h2 (List.mem_cons_of_mem _ hm)) h.2
      exact ⟨by rw [h.1, ht], hb⟩

theorem jobIdString_inj (t1 n1 t2 n2 : Nat)
    (h : jobIdString t1 n1 = jobIdString t2 n2) : t1 = t2 ∧ n1 = n2 := by
  unfold jobIdString at h
  have hl : 'j' :: 'o' :: 'b' :: '_' :: (natChars t1 ++ '_' :: natChars n1) =
      'j' :: 'o' :: 'b' :: '_' :: (natChars t2 ++ '_' :: natChars n2) := by
    injection h
  simp only [List.cons.injEq, true_and] at hl
  obtain ⟨ht, hn⟩ := append_underscore_eq _ _ _ _
    (natChars_no_underscore t1) (natChars_no_underscore t2) hl
  exact ⟨natChars_injective _ _ ht, natChars_injective _ _ hn⟩

/-- C3 (amended): the id `submit_job` assigns is a deterministic function
of the millisecond clock reading and the number of currently active jobs,
and two submissions receive distinct ids whenever that pair differs; the
id is not globally unique, since a completion can return the pair to an
earlier value. -/
theorem submit_job_id_structure :
    (∀ (s : CoordState) (data : SubmitPayload) (now : ℚ),
      (submit_job s data now).2 =
        jobIdString (Rat.floor (now * 1000)).toNat s.active_jobs.length) ∧
    (∀ t1 n1 t2 n2 : Nat, jobIdString t1 n1 = jobIdString t2 n2 →
      t1 = t2 ∧ n1 = n2) :=
  ⟨fun _ _ _ => rfl, jobIdString_inj⟩

theorem submit_job_id_structure_witness :
    (submit_job initState
        { type := none, priority := none, parameters := none
          gpu_preferred := none } 5).2 =
      jobIdString (Rat.floor ((5 : ℚ) * 1000)).toNat 0 ∧
    (5000 = 5000 ∧ 0 = 0) :=
  ⟨submit_job_id_structure.1 initState
      { type := none, priority := none, parameters := none
        gpu_preferred := none } 5,
   submit_job_id_structure.2 5000 0 5000 0 rfl⟩

theorem floor_five_seconds_ms : (Rat.floor ((5 : ℚ) * 1000)).toNat = 5000 := by
  have h : ((5 : ℚ) * 1000) = 5000 := by norm_num
  have h2 : Rat.floor (5000 : ℚ) = ⌊(5000 : ℚ)⌋ := rfl
  rw [h, h2]
  norm_num
  rfl

theorem floor_collision_ms :
    (Rat.floor ((10001 : ℚ) / 2000 * 1000)).toNat = 5000 := by
  have h : ((10001 : ℚ) / 2000 * 1000) = 10001 / 2 := by norm_num
  have h2 : Rat.floor ((10001 : ℚ) / 2) = ⌊(10001 : ℚ) / 2⌋ := rfl
  rw [h, h2]
  norm_num
  rfl

theorem jobIdString_5000_0 : jobIdString 5000 0 = "job_5000_0" := by decide

/-- Payload of the collision trace: a normal-priority thread job that does
not prefer GPU (so its completion needs no registered node). -/
def plC34 : SubmitPayload :=
  { type := none, priority := none, parameters := none
    gpu_preferred := some false }

def subC34a : CoordState × String := submit_job initState plC34 5

def jobA34 : Job :=
  { id := "job_5000_0", type := "thread", priority := "normal"
    parameters := [], submitted_at := 5, status := "queued"
    assigned_node := none, gpu_preferred := false, assigned_at := none
    completed_at := none, failed_at := none, execution_time := none
    result := none, error := none }

def stateA34 : CoordState :=
  { nodes := [], active_jobs := [("job_5000_0", jobA34)]
    completed_jobs := []
    stats := { total_calculations := 0, gpu_calculations := 0
               cpu_calculations := 0, nodes_online := 0 }
    priority_queue := [], collatz_queue := [], thread_queue := [jobA34] }

theorem subC34a_eval : subC34a = (stateA34, "job_5000_0") := by
  simp only [subC34a, submit_job, initState, plC34, List.length_nil,
    floor_five_seconds_ms, jobIdString_5000_0]
  decide

def jobB34 : Job :=
  { jobA34 with assigned_node := some "n1", status := "assigned"
                assigned_at := some 5 }

def stateB34 : CoordState :=
  { stateA34 with active_jobs := [("job_5000_0", jobB34)] }

def sC34b : CoordState := mark_assigned subC34a.1 subC34a.2 "n1" 5

theorem sC34b_eval : sC34b = stateB34 := by
  unfold sC34b
  rw [subC34a_eval]
  decide

def compC34 : Option (CoordState × List Event) :=
  handle_job_completion sC34b "job_5000_0" "ok" 6

def sC34c : CoordState := (compC34.map Prod.fst).getD initState

theorem sC34c_active : sC34c.active_jobs = [] := by
  unfold sC34c compC34
  rw [sC34b_eval]
  decide

theorem sC34c_completed :
    (dlookup sC34c.completed_jobs "job_5000_0").isSome = true := by
  unfold sC34c compC34
  rw [sC34b_eval]
  decide

def subC34d : CoordState × String := submit_job sC34c plC34 (10001 / 2000)

theorem subC34d_id : subC34d.2 = "job_5000_0" := by
  have h : subC34d.2 =
      jobIdString (Rat.floor ((10001 : ℚ) / 2000 * 1000)).toNat
        sC34c.active_jobs.length := rfl
  rw [h, floor_collision_ms, sC34c_active]
  exact jobIdString_5000_0

/-- C3 counterexample: two distinct submissions — the first at clock time
5 s with no active job, the second at clock time 10001/2000 s (= 5.0005 s,
strictly later) after the first job completed — are both assigned the id
`job_5000_0`: ids are neither unique nor strictly increasing. -/
theorem job_id_collision :
    subC34a.2 = "job_5000_0" ∧ subC34d.2 = "job_5000_0" ∧
    (5 : ℚ) < 10001 / 2000 := by
  refine ⟨?_, subC34d_id, by norm_num⟩
  rw [subC34a_eval]

/-- A submitted job id the coordinator still holds: key of the active or
of the completed map. -/
def jobPlaced (s : CoordState) (k : String) : Prop :=
  (dlookup s.active_jobs k).isSome = true ∨
  (dlookup s.completed_jobs k).isSome = true

/-- The two job maps share no key. -/
def mapsDisjoint (s : CoordState) : Prop :=
  ∀ k, (dlookup s.active_jobs k).isSome = true →
    (dlookup s.completed_jobs k).isSome = true → False

theorem dinsert_existing_isSome {α : Type} (m : List (String × α))
    (k : String) (v w : α) (hw : dlookup m k = some w) (k2 : String) :
    (dlookup (dinsert m k v) k2).isSome = (dlookup m k2).isSome := by
  by_cases hk : k2 = k
  · subst hk
    simp [dlookup_dinsert_self, hw]
  · rw [dlookup_dinsert_ne _ _ _ _ hk]

theorem dlookup_filter_isSome {α : Type} (f : String × α → Bool)
    (m : List (String × α)) (k : String)
    (h : (dlookup (m.filter f) k).isSome = true) :
    (dlookup m k).isSome = true := by
  induction m with
  | nil => simp [dlookup] at h
  | cons p rest ih =>
    rw [List.filter_cons] at h
    by_cases hf : f p
    · rw [if_pos hf] at h
      by_cases hk : p.1 = k
      · simp [dlookup, hk]
      · rw [dlookup] at h ⊢
        rw [if_neg hk] at h ⊢
        exact ih h
    · rw [if_neg (by simpa using hf)] at h
      by_cases hk : p.1 = k
      · simp [dlookup, hk]
      · rw [dlookup, if_neg hk]
        exact ih h

theorem submit_job_maps (s : CoordState) (data : SubmitPayload) (now : ℚ) :
    (∃ j, (submit_job s data now).1.active_jobs =
      dinsert s.active_jobs (submit_job s data now).2 j) ∧
    (submit_job s data now).1.completed_jobs = s.completed_jobs := by
  simp only [submit_job]
  by_cases h1 : (data.priority.getD "normal") == "high"
  · simp only [h1, if_true]
    refine ⟨⟨_, rfl⟩, ?_⟩
    trivial
  · by_cases h2 : (data.type.getD "thread") == "collatz" <;>
      simp only [h1, h2, Bool.false_eq_true, if_false, if_true] <;>
      refine ⟨⟨_, rfl⟩, ?_⟩ <;> trivial

theorem handle_job_completion_shape (s : CoordState) (jid res : String)
    (now : ℚ) (s2 : CoordState) (ev : List Event)
    (h : handle_job_completion s jid res now = some (s2, ev)) :
    (dlookup s.active_jobs jid = none ∧ s2 = s ∧ ev = []) ∨
    ((∃ job, dlookup s.active_jobs jid = some job) ∧
     s2.active_jobs = derase s.active_jobs jid ∧
     ∃ job2, s2.completed_jobs = dinsert s.completed_jobs jid job2) := by
  unfold handle_job_completion at h
  cases hj : dlookup s.active_jobs jid with
  | none =>
    simp only [hj, Option.some.injEq, Prod.mk.injEq] at h
    exact Or.inl ⟨rfl, h.1.symm, h.2.symm⟩
  | some job =>
    simp only [hj] at h
    cases hta : job.assigned_at with
    | none => simp only [hta] at h; simp at h
    | some ta =>
      simp only [hta] at h
      split at h
      · simp at h
      · simp only [Option.some.injEq, Prod.mk.injEq] at h
        refine Or.inr ⟨⟨job, rfl⟩, ?_, ?_⟩
        · rw [← h.1]
        · exact ⟨_, by rw [← h.1]⟩

theorem handle_job_failure_maps (s : CoordState) (jid err : String)
    (now : ℚ) :
    (handle_job_failure s jid err now).1.completed_jobs =
      s.completed_jobs ∧
    ∀ k, (dlookup (handle_job_failure s jid err now).1.active_jobs k).isSome
      = (dlookup s.active_jobs k).isSome := by
  unfold handle_job_failure
  cases hj : dlookup s.active_jobs jid with
  | none => exact ⟨rfl, fun k => rfl⟩
  | some job => exact ⟨rfl, fun k => dinsert_existing_isSome _ _ _ _ hj k⟩

theorem mark_assigned_maps (s : CoordState) (jid nid : String) (now : ℚ) :
    (mark_assigned s jid nid now).completed_jobs = s.completed_jobs ∧
    ∀ k, (dlookup (mark_assigned s jid nid now).active_jobs k).isSome
      = (dlookup s.active_jobs k).isSome := by
  unfold mark_assigned
  cases hj : dlookup s.active_jobs jid with
  | none => exact ⟨rfl, fun k => rfl⟩
  | some job => exact ⟨rfl, fun k => dinsert_existing_isSome _ _ _ _ hj k⟩

/-- C4 (amended): the active and completed maps start disjoint and every
job-record operation preserves disjointness and keeps every submitted,
not-yet-evicted id in exactly one map — PROVIDED the id minted at
submission is not already a key of the completed map.  (The proviso is
necessary: minted ids can repeat, see the collision counterexample, and a
repeat makes the id a key of both maps.) -/
theorem job_maps_exclusive :
    mapsDisjoint initState ∧
    (∀ s data now, mapsDisjoint s →
      dlookup s.completed_jobs (submit_job s data now).2 = none →
      mapsDisjoint (submit_job s data now).1 ∧
      jobPlaced (submit_job s data now).1 (submit_job s data now).2 ∧
      ∀ k, jobPlaced s k → jobPlaced (submit_job s data now).1 k) ∧
    (∀ s jid res now s2 ev, mapsDisjoint s →
      handle_job_completion s jid res now = some (s2, ev) →
      mapsDisjoint s2 ∧ ∀ k, jobPlaced s2 k ↔ jobPlaced s k) ∧
    (∀ s jid err now, mapsDisjoint s →
      mapsDisjoint (handle_job_failure s jid err now).1 ∧
      ∀ k, jobPlaced (handle_job_failure s jid err now).1 k ↔ jobPlaced s k) ∧
    (∀ s jid nid now, mapsDisjoint s →
      mapsDisjoint (mark_assigned s jid nid now) ∧
      ∀ k, jobPlaced (mark_assigned s jid nid now) k ↔ jobPlaced s k) ∧
    (∀ s now, mapsDisjoint s →
      mapsDisjoint (cleanup_old_jobs s now) ∧
      (cleanup_old_jobs s now).active_jobs = s.active_jobs ∧
      ∀ k, jobPlaced (cleanup_old_jobs s now) k → jobPlaced s k) := by
  refine ⟨?_, ?_, ?_, ?_, ?_, ?_⟩
  · intro k h1 _
    simp [initState, dlookup] at h1
  · intro s data now hdisj hfresh
    obtain ⟨⟨j, hact⟩, hcomp⟩ := submit_job_maps s data now
    refine ⟨?_, ?_, ?_⟩
    · intro k hak hck
      rw [hcomp] at hck
      by_cases hk : k = (submit_job s data now).2
      · rw [hk, hfresh] at hck
        simp at hck
      · rw [hact, dlookup_dinsert_ne _ _ _ _ hk] at hak
        exact hdisj k hak hck
    · exact Or.inl (by rw [hact, dlookup_dinsert_self]; rfl)
    · intro k hp
      rcases hp with hak | hck
      · by_cases hk : k = (submit_job s data now).2
        · exact Or.inl (by rw [hact, hk, dlookup_dinsert_self]; rfl)
        · exact Or.inl (by rw [hact, dlookup_dinsert_ne _ _ _ _ hk]; exact hak)
      · exact Or.inr (by rw [hcomp]; exact hck)
  · intro s jid res now s2 ev hdisj h
    rcases handle_job_completion_shape s jid res now s2 ev h with
      ⟨_, hs2, _⟩ | ⟨⟨job, hjob⟩, hact, job2, hcomp⟩
    · subst hs2
      exact ⟨hdisj, fun k => Iff.rfl⟩
    · constructor
      · intro k hak hck
        by_cases hk : k = jid
        · rw [hk, hact, dlookup_derase_self] at hak
          simp at hak
        · rw [hact, dlookup_derase_ne _ _ _ hk] at hak
          rw [hcomp, dlookup_dinsert_ne _ _ _ _ hk] at hck
          exact hdisj k hak hck
      · intro k
        by_cases hk : k = jid
        · subst hk
          constructor
          · intro _
            exact Or.inl (by rw [hjob]; rfl)
          · intro _
            exact Or.inr (by rw [hcomp, dlookup_dinsert_self]; rfl)
        · unfold jobPlaced
          rw [hact, dlookup_derase_ne _ _ _ hk,
            hcomp, dlookup_dinsert_ne _ _ _ _ hk]
  · intro s jid err now hdisj
    obtain ⟨hcomp, hact⟩ := handle_job_failure_maps s jid err now
    constructor
    · intro k hak hck
      rw [hact k] at hak
      rw [hcomp] at hck
      exact hdisj k hak hck
    · intro k
      unfold jobPlaced
      rw [hact k, hcomp]
  · intro s jid nid now hdisj
    obtain ⟨hcomp, hact⟩ := mark_assigned_maps s jid nid now
    constructor
    · intro k hak hck
      rw [hact k] at hak
      rw [hcomp] at hck
      exact hdisj k hak hck
    · intro k
      unfold jobPlaced
      rw [hact k, hcomp]
  · intro s now hdisj
    refine ⟨?_, rfl, ?_⟩
    · intro k hak hck
      exact hdisj k hak (dlookup_filter_isSome _ _ _ hck)
    · intro k hp
      rcases hp with hak | hck
      · exact Or.inl hak
      · exact Or.inr (dlookup_filter_isSome _ _ _ hck)

theorem job_maps_exclusive_witness :
    mapsDisjoint (submit_job initState plC34 5).1 ∧
    jobPlaced (submit_job initState plC34 5).1
      (submit_job initState plC34 5).2 :=
  ⟨(job_maps_exclusive.2.1 initState plC34 5 job_maps_exclusive.1 rfl).1,
   (job_maps_exclusive.2.1 initState plC34 5 job_maps_exclusive.1 rfl).2.1⟩

/-- C4 counterexample: in the id-collision trace the second submission of
`job_5000_0` happens while the first, completed `job_5000_0` record is
still retained, leaving the id a key of BOTH `active_jobs` and
`completed_jobs`. -/
theorem job_in_both_maps :
    (dlookup subC34d.1.active_jobs "job_5000_0").isSome = true ∧
    (dlookup subC34d.1.completed_jobs "job_5000_0").isSome = true := by
  constructor
  · rw [← subC34d_id]
    obtain ⟨⟨j, hact⟩, _⟩ := submit_job_maps sC34c plC34 (10001 / 2000)
    show (dlookup (submit_job sC34c plC34 (10001 / 2000)).1.active_jobs
      (submit_job sC34c plC34 (10001 / 2000)).2).isSome = true
    rw [hact, dlookup_dinsert_self]
    rfl
  · obtain ⟨_, hcomp⟩ := submit_job_maps sC34c plC34 (10001 / 2000)
    show (dlookup (submit_job sC34c plC34 (10001 / 2000)).1.completed_jobs
      "job_5000_0").isSome = true
    rw [hcomp]
    exact sC34c_completed

def cpuNode6 : NodeInfo :=
  { id := "n1", address := "10.0.0.1:8080", capabilities := []
    gpu_enabled := false, worker_threads := 4, status := "online"
    last_heartbeat := 0, jobs_completed := 0, average_job_time := 0
    load_score := 1 }

def gpuNode6 : NodeInfo :=
  { id := "n2", address := "10.0.0.2:8080", capabilities := ["gpu"]
    gpu_enabled := true, worker_threads := 8, status := "online"
    last_heartbeat := 0, jobs_completed := 0, average_job_time := 0
    load_score := 5 }

def nodes6 : List (String × NodeInfo) := [("n1", cpuNode6), ("n2", gpuNode6)]

def job6 : Job :=
  { id := "job_0_0", type := "thread", priority := "normal", parameters := []
    submitted_at := 0, status := "queued", assigned_node := none
    gpu_preferred := true, assigned_at := none, completed_at := none
    failed_at := none, execution_time := none, result := none, error := none }

theorem select_best_node_correct_witness :
    select_best_node nodes6 job6 = some gpuNode6 ∧
    gpuNode6.status = "online" :=
  ⟨by decide,
   ((select_best_node_correct nodes6 job6).2 gpuNode6 (by decide)).1⟩

theorem floorMs0 : (Rat.floor ((0 : ℚ) * 1000)).toNat = 0 := by
  have h : ((0 : ℚ) * 1000) = 0 := by norm_num
  have h2 : Rat.floor (0 : ℚ) = ⌊(0 : ℚ)⌋ := rfl
  rw [h, h2]
  norm_num

theorem floorMs1000 : (Rat.floor ((1 : ℚ) * 1000)).toNat = 1000 := by
  have h : ((1 : ℚ) * 1000) = 1000 := by norm_num
  have h2 : Rat.floor (1000 : ℚ) = ⌊(1000 : ℚ)⌋ := rfl
  rw [h, h2]
  norm_num
  rfl

theorem floorMs2000 : (Rat.floor ((2 : ℚ) * 1000)).toNat = 2000 := by
  have h : ((2 : ℚ) * 1000) = 2000 := by norm_num
  have h2 : Rat.floor (2000 : ℚ) = ⌊(2000 : ℚ)⌋ := rfl
  rw [h, h2]
  norm_num
  rfl

def plThreadNormal : SubmitPayload :=
  { type := none, priority := none, parameters := none, gpu_preferred := none }

def plCollatzNormal : SubmitPayload :=
  { type := some "collatz", priority := none, parameters := none
    gpu_preferred := none }

def plThreadHigh : SubmitPayload :=
  { type := none, priority := some "high", parameters := none
    gpu_preferred := none }

def subT1 : CoordState × String := submit_job initState plThreadNormal 0

def subC1 : CoordState × String := submit_job subT1.1 plCollatzNormal 1

def subP1 : CoordState × String := submit_job subC1.1 plThreadHigh 2

def stateC5 : CoordState := subP1.1

def jobT1q : Job :=
  { id := "job_0_0", type := "thread", priority := "normal", parameters := []
    submitted_at := 0, status := "queued", assigned_node := none
    gpu_preferred := true, assigned_at := none, completed_at := none
    failed_at := none, execution_time := none, result := none, error := none }

def jobC1q : Job :=
  { jobT1q with id := "job_1000_1", type := "collatz", submitted_at := 1 }

def jobP1q : Job :=
  { jobT1q with id := "job_2000_2", priority := "high", submitted_at := 2 }

def stateT1 : CoordState :=
  { initState with active_jobs := [("job_0_0", jobT1q)]
                   thread_queue := [jobT1q] }

def stateCT1 : CoordState :=
  { stateT1 with active_jobs := [("job_0_0", jobT1q), ("job_1000_1", jobC1q)]
                 collatz_queue := [jobC1q] }

def statePCT1 : CoordState :=
  { stateCT1 with
      active_jobs :=
        [("job_0_0", jobT1q), ("job_1000_1", jobC1q), ("job_2000_2", jobP1q)]
      priority_queue := [jobP1q] }

theorem subT1_eval : subT1 = (stateT1, "job_0_0") := by
  simp only [subT1, submit_job, initState, List.length_nil, plThreadNormal,
    floorMs0]
  decide

theorem subC1_eval : subC1 = (stateCT1, "job_1000_1") := by
  unfold subC1
  rw [subT1_eval]
  simp only [submit_job, plCollatzNormal, floorMs1000]
  decide

theorem subP1_eval : subP1 = (statePCT1, "job_2000_2") := by
  unfold subP1
  rw [subC1_eval]
  simp only [submit_job, plThreadHigh, floorMs2000]
  decide

/-- The ids of the first three jobs the dispatcher loop would pull, in
order (each pull via the priority-then-collatz-then-thread inspection). -/
def dispatchIds3 (s : CoordState) : Option (String × String × String) :=
  match dequeue_next s with
  | none => none
  | some (j1, s1) =>
    match dequeue_next s1 with
    | none => none
    | some (j2, s2) =>
      match dequeue_next s2 with
      | none => none
      | some (j3, _) => some (j1.id, j2.id, j3.id)

/-- C5: submission places a job in exactly one queue (`high` priority →
priority queue; else `collatz` type → collatz queue; else thread queue);
one dispatcher inspection takes from the collatz queue only when the
priority queue is empty and from the thread queue only when both are
empty; and submitting t1 (normal, thread), c1 (normal, collatz), p1
(high, thread) into an idle coordinator yields dispatch order p1, c1,
t1. -/
theorem queue_discipline :
    (∀ (s : CoordState) (data : SubmitPayload) (now : ℚ),
      ((data.priority.getD "normal") = "high" →
        ∃ j, (submit_job s data now).1.priority_queue =
            s.priority_queue ++ [j] ∧
          j.id = (submit_job s data now).2 ∧
          (submit_job s data now).1.collatz_queue = s.collatz_queue ∧
          (submit_job s data now).1.thread_queue = s.thread_queue) ∧
      ((data.priority.getD "normal") ≠ "high" →
        (data.type.getD "thread") = "collatz" →
        ∃ j, (submit_job s data now).1.collatz_queue =
            s.collatz_queue ++ [j] ∧
          j.id = (submit_job s data now).2 ∧
          (submit_job s data now).1.priority_queue = s.priority_queue ∧
          (submit_job s data now).1.thread_queue = s.thread_queue) ∧
      ((data.priority.getD "normal") ≠ "high" →
        (data.type.getD "thread") ≠ "collatz" →
        ∃ j, (submit_job s data now).1.thread_queue =
            s.thread_queue ++ [j] ∧
          j.id = (submit_job s data now).2 ∧
          (submit_job s data now).1.priority_queue = s.priority_queue ∧
          (submit_job s data now).1.collatz_queue = s.collatz_queue)) ∧
    (∀ (s : CoordState) (j : Job) (s2 : CoordState),
      dequeue_next s = some (j, s2) →
      (∃ rest, s.priority_queue = j :: rest) ∨
      (s.priority_queue = [] ∧ ∃ rest, s.collatz_queue = j :: rest) ∨
      (s.priority_queue = [] ∧ s.collatz_queue = [] ∧
        ∃ rest, s.thread_queue = j :: rest)) ∧
    dispatchIds3 stateC5 = some ("job_2000_2", "job_1000_1", "job_0_0") := by
  refine ⟨?_, ?_, ?_⟩
  · intro s data now
    refine ⟨?_, ?_, ?_⟩
    · intro hp
      have h1 : ((data.priority.getD "normal") == "high") = true := by
        simp [hp]
      simp only [submit_job, h1, if_true]
      refine ⟨_, rfl, rfl, ?_, ?_⟩ <;> trivial
    · intro hp ht
      have h1 : ((data.priority.getD "normal") == "high") = false := by
        simp [hp]
      have h2 : ((data.type.getD "thread") == "collatz") = true := by
        simp [ht]
      simp only [submit_job, h1, h2, Bool.false_eq_true, if_false, if_true]
      refine ⟨_, rfl, rfl, ?_, ?_⟩ <;> trivial
    · intro hp ht
      have h1 : ((data.priority.getD "normal") == "high") = false := by
        simp [hp]
      have h2 : ((data.type.getD "thread") == "collatz") = false := by
        simp [ht]
      simp only [submit_job, h1, h2, Bool.false_eq_true, if_false]
      refine ⟨_, rfl, rfl, ?_, ?_⟩ <;> trivial
  · intro s j s2 h
    unfold dequeue_next at h
    cases hp : s.priority_queue with
    | cons a rest =>
      rw [hp] at h
      simp only [Option.some.injEq, Prod.mk.injEq] at h
      exact Or.inl ⟨rest, by rw [h.1]⟩
    | nil =>
      rw [hp] at h
      cases hc : s.collatz_queue with
      | cons a rest =>
        rw [hc] at h
        simp only [Option.some.injEq, Prod.mk.injEq] at h
        exact Or.inr (Or.inl ⟨rfl, rest, by rw [h.1]⟩)
      | nil =>
        rw [hc] at h
        cases ht : s.thread_queue with
        | cons a rest =>
          rw [ht] at h
          simp only [Option.some.injEq, Prod.mk.injEq] at h
          exact Or.inr (Or.inr ⟨rfl, rfl, rest, by rw [h.1]⟩)
        | nil => rw [ht] at h; simp at h
  · unfold stateC5
    rw [subP1_eval]
    decide

theorem queue_discipline_witness :
    (submit_job initState plThreadHigh 2).1.collatz_queue =
      initState.collatz_queue ∧
    (submit_job initState plThreadHigh 2).1.thread_queue =
      initState.thread_queue := by
  obtain ⟨j, hq, hid, hc, ht⟩ :=
    (queue_discipline.1 initState plThreadHigh 2).1 rfl
  exact ⟨hc, ht⟩

end Coordinator
